import Mathlib

/-
Verification of the FGS-BOPIN grocery storefront (src/app.py, src/models.py).

The embedding models the durable store (products, orders, order items) as
explicit lists, the session cart as an optional list of cart lines, and each
Flask route handler as a pure function from the pre-state to a result plus a
post-state.  Python floats are embedded as rationals; Python strings as Lean
strings.  Request form fields are Lean strings where the empty string stands
for a missing field, matching the truthiness test used by the handlers.
-/

set_option autoImplicit false

namespace FGS

/-! ## Quantity formatting (app.py, format_quantity, lines 927-951) -/

/-- Truncation toward zero, matching the Python builtin int() on a number. -/
def truncRat (q : ℚ) : ℤ :=
  q.num.tdiv (q.den : ℤ)

/-- Digits of the fractional part of a nonnegative rational written in decimal,
with fuel bounding the number of digits; `numAbs` is the current remainder
numerator over denominator `den`.  Stops when the remainder is exhausted. -/
def fracDigits : Nat → Nat → Nat → String
  | 0, _, _ => ""
  | _ + 1, 0, _ => ""
  | fuel + 1, numAbs, den =>
      toString (numAbs * 10 / den) ++ fracDigits fuel (numAbs * 10 % den) den

/-- Decimal rendering of a rational, matching the Python builtin str() on the
finite decimal values the application passes through it
(e.g. `decStr (5/2) = "2.5"`). -/
def decStr (q : ℚ) : String :=
  let n := q.num.natAbs
  let d := q.den
  (if q < 0 then "-" else "") ++ toString (n / d) ++ "." ++ fracDigits 64 (n % d) d

/-- Embeds format_quantity (app.py lines 927-951): display string for a
quantity given the unit type of the product. -/
def format_quantity (quantity : ℚ) (unit_type : String) : String :=
  if unit_type = "kg" then
    if quantity = 1 then "1 kg"
    else if quantity = 3 / 4 then "750g"
    else if quantity = 1 / 2 then "500g"
    else if quantity = 1 / 4 then "250g"
    else if quantity = 1 / 10 then "100g"
    else if quantity.den = 1 then toString quantity.num ++ " kg"
    else toString (truncRat (quantity * 1000)) ++ "g"
  else
    if quantity.den = 1 then toString quantity.num
    else decStr quantity

/-! ## Data model (src/models.py)

Timestamps (`created_at`, parsed pickup datetimes) are opaque to every claim;
`created_at` columns are omitted and pickup datetimes are abstract `Nat`
values produced by an injected parser standing for `datetime.strptime`. -/

/-- Embeds the Product row (models.py lines 7-21). -/
structure Product where
  id : Nat
  name : String
  description : String
  price : ℚ
  original_price : Option ℚ
  quantity_available : ℚ
  unit_type : String
  image_path : Option String
  deriving Repr, DecidableEq

/-- Embeds one entry of the session cart list built by add_to_cart
(app.py lines 348-355). -/
structure CartLine where
  product_id : Nat
  quantity : ℚ
  price : ℚ
  name : String
  image_path : Option String
  unit_type : String
  deriving Repr, DecidableEq

/-- Embeds the Order row (models.py lines 55-67). -/
structure Order where
  id : Nat
  customer_name : String
  customer_email : Option String
  customer_phone : String
  pickup_time : Nat
  total_amount : ℚ
  status : String
  deriving Repr, DecidableEq

/-- Embeds the OrderItem row (models.py lines 82-89). -/
structure OrderItem where
  id : Nat
  order_id : Nat
  product_id : Nat
  quantity : ℚ
  price : ℚ
  deriving Repr, DecidableEq

/-- The durable store: the three tables the claims touch, plus the
autoincrement counters of their integer primary keys. -/
structure DBState where
  products : List Product
  orders : List Order
  order_items : List OrderItem
  next_product_id : Nat
  next_order_id : Nat
  next_item_id : Nat
  deriving Repr, DecidableEq

/-- Product.query.get: the row whose primary key equals `pid`, if any. -/
def Product.lookup (products : List Product) (pid : Nat) : Option Product :=
  products.find? (fun p => p.id == pid)

/-! ## Cart operations (app.py, add_to_cart / update_cart / remove_from_cart)

The session cart is `Option (List CartLine)`: `none` when the session has no
cart key at all, `some cart` otherwise. -/

inductive CartAddResult where
  | notFound
  | insufficientStock
  | ok (cart : List CartLine)
  deriving Repr, DecidableEq

/-- Sets the quantity of the first cart line whose product_id matches,
modelling the mutate-and-break loop bodies of add_to_cart and update_cart. -/
def setQuantityFirst : List CartLine → Nat → ℚ → List CartLine
  | [], _, _ => []
  | item :: rest, pid, q =>
      if item.product_id == pid then { item with quantity := q } :: rest
      else item :: setQuantityFirst rest pid q

/-- Embeds add_to_cart (app.py lines 321-359).  The product is fetched with
get_or_404; a missing product is the `notFound` outcome. -/
def add_to_cart (st : DBState) (sess : Option (List CartLine)) (product_id : Nat)
    (quantity : ℚ) : CartAddResult :=
  match Product.lookup st.products product_id with
  | none => .notFound
  | some product =>
      if quantity > product.quantity_available then .insufficientStock
      else
        let cart := sess.getD []
        match cart.find? (fun item => item.product_id == product_id) with
        | some item =>
            let new_quantity := item.quantity + quantity
            if new_quantity > product.quantity_available then .insufficientStock
            else .ok (setQuantityFirst cart product_id new_quantity)
        | none =>
            .ok (cart ++ [{ product_id := product_id, quantity := quantity,
                            price := product.price, name := product.name,
                            image_path := product.image_path,
                            unit_type := product.unit_type }])

inductive CartUpdateResult where
  | cartEmpty
  | notFound
  | insufficientStock
  | ok (cart : List CartLine)
  deriving Repr, DecidableEq

/-- The for-loop of update_cart (app.py lines 396-402): at the first line
whose product_id matches, remove it when the new quantity is zero, else
overwrite its quantity, then break. -/
def updateLoop : List CartLine → Nat → ℚ → List CartLine
  | [], _, _ => []
  | item :: rest, pid, q =>
      if item.product_id == pid then
        if q = 0 then rest else { item with quantity := q } :: rest
      else item :: updateLoop rest pid q

/-- Embeds update_cart (app.py lines 381-406). -/
def update_cart (st : DBState) (sess : Option (List CartLine)) (product_id : Nat)
    (quantity : ℚ) : CartUpdateResult :=
  match sess with
  | none => .cartEmpty
  | some cart =>
      match Product.lookup st.products product_id with
      | none => .notFound
      | some product =>
          if quantity > product.quantity_available then .insufficientStock
          else .ok (updateLoop cart product_id quantity)

inductive CartRemoveResult where
  | cartEmpty
  | ok (cart : List CartLine)
  deriving Repr, DecidableEq

/-- Embeds remove_from_cart (app.py lines 408-421): a 400 error when the
session holds no cart key, otherwise keep every line of a different
product_id. -/
def remove_from_cart (sess : Option (List CartLine)) (product_id : Nat) :
    CartRemoveResult :=
  match sess with
  | none => .cartEmpty
  | some cart => .ok (cart.filter (fun item => item.product_id != product_id))

/-! ## Checkout engine (app.py, process_checkout, lines 457-531) -/

/-- The POST /checkout form fields.  A missing field and an empty field are
both falsy in the handler, so both are modelled by the empty string. -/
structure CheckoutForm where
  customer_name : String
  customer_email : String
  customer_phone : String
  pickup_date : String
  pickup_time_slot : String
  deriving Repr, DecidableEq

inductive CheckoutResult where
  | cartRedirect
  | missingFields
  | invalidPickup
  | outOfStock
  | success (order_id : Nat)
  deriving Repr, DecidableEq

/-- One entry of the cart_items accumulator built by the validation loop
(app.py lines 481-495). -/
structure ValidatedItem where
  product : Product
  quantity : ℚ
  price : ℚ
  subtotal : ℚ
  deriving Repr, DecidableEq

/-- The validation loop of process_checkout (app.py lines 481-495): re-read
each product of the cart and fail when it is missing, has no stock, or the
line quantity exceeds availability; otherwise collect it with its subtotal. -/
def validateCart (st : DBState) : List CartLine → Option (List ValidatedItem)
  | [] => some []
  | item :: rest =>
      match Product.lookup st.products item.product_id with
      | none => none
      | some product =>
          if product.quantity_available ≤ 0 ∨ item.quantity > product.quantity_available then
            none
          else
            match validateCart st rest with
            | none => none
            | some items =>
                some ({ product := product, quantity := item.quantity,
                        price := item.price,
                        subtotal := item.price * item.quantity } :: items)

/-- The OrderItem rows inserted by the commit loop (app.py lines 510-517),
with consecutive autoincrement ids. -/
def mkOrderItems (next_id : Nat) (order_id : Nat) : List ValidatedItem → List OrderItem
  | [] => []
  | item :: rest =>
      { id := next_id, order_id := order_id, product_id := item.product.id,
        quantity := item.quantity, price := item.price }
        :: mkOrderItems (next_id + 1) order_id rest

/-- One stock decrement (app.py line 520) applied to the row of the product. -/
def decrementProduct (products : List Product) (pid : Nat) (q : ℚ) : List Product :=
  products.map (fun p =>
    if p.id == pid then { p with quantity_available := p.quantity_available - q } else p)

/-- The stock decrements of the commit loop, one per validated line. -/
def applyDecrements (products : List Product) : List ValidatedItem → List Product
  | [] => products
  | item :: rest => applyDecrements (decrementProduct products item.product.id item.quantity) rest

/-- Embeds process_checkout (app.py lines 457-531).  `parse_pickup` stands
for datetime.strptime over the date and time-slot fields; the handler treats
its failure as an invalid pickup time.  Returns the outcome, the durable
state, and the session cart after the request. -/
def process_checkout (parse_pickup : String → String → Option Nat)
    (st : DBState) (sess : Option (List CartLine)) (form : CheckoutForm) :
    CheckoutResult × DBState × Option (List CartLine) :=
  match sess with
  | none => (.cartRedirect, st, none)
  | some cart =>
      if cart = [] then (.cartRedirect, st, some cart)
      else
        let customer_email :=
          if form.customer_email = "" then none else some form.customer_email
        if form.customer_name = "" ∨ form.customer_phone = "" ∨
            form.pickup_date = "" ∨ form.pickup_time_slot = "" then
          (.missingFields, st, some cart)
        else
          match parse_pickup form.pickup_date form.pickup_time_slot with
          | none => (.invalidPickup, st, some cart)
          | some pickup_datetime =>
              match validateCart st cart with
              | none => (.outOfStock, st, some cart)
              | some items =>
                  let total := (items.map (·.subtotal)).sum
                  let order : Order :=
                    { id := st.next_order_id, customer_name := form.customer_name,
                      customer_email := customer_email,
                      customer_phone := form.customer_phone,
                      pickup_time := pickup_datetime, total_amount := total,
                      status := "pending" }
                  (.success order.id,
                   { st with
                       orders := st.orders ++ [order],
                       order_items := st.order_items ++ mkOrderItems st.next_item_id order.id items,
                       products := applyDecrements st.products items,
                       next_order_id := st.next_order_id + 1,
                       next_item_id := st.next_item_id + items.length },
                   none)

/-! ## Seller operations (app.py) -/

/-- The product form fields used by add_product and update_product
(app.py lines 739-745 and 778-784).  `quantity` is float(form quantity):
the handlers perform no range validation on it. -/
structure ProductForm where
  name : String
  description : String
  price : ℚ
  original_price : Option ℚ
  quantity : ℚ
  unit_type : String
  deriving Repr, DecidableEq

/-- Embeds add_product (app.py lines 736-771); `image_upload` is the stored
path of a valid uploaded image, if any. -/
def add_product (st : DBState) (form : ProductForm) (image_upload : Option String) : DBState :=
  { st with
      products := st.products ++
        [{ id := st.next_product_id, name := form.name,
           description := form.description, price := form.price,
           original_price := form.original_price,
           quantity_available := form.quantity, unit_type := form.unit_type,
           image_path := image_upload }],
      next_product_id := st.next_product_id + 1 }

/-- Embeds update_product (app.py lines 773-805): overwrite every field of
the row from the form, keeping the old image when no new one is uploaded.
`none` is the get_or_404 outcome for a missing product. -/
def update_product (st : DBState) (pid : Nat) (form : ProductForm)
    (image_upload : Option String) : Option DBState :=
  match Product.lookup st.products pid with
  | none => none
  | some _ =>
      some { st with
               products := st.products.map (fun p =>
                 if p.id == pid then
                   { p with name := form.name, description := form.description,
                            price := form.price,
                            original_price := form.original_price,
                            quantity_available := form.quantity,
                            unit_type := form.unit_type,
                            image_path := (image_upload.elim p.image_path some) }
                 else p) }

/-- Embeds mark_out_of_stock (app.py lines 826-834): set the quantity of the
product to zero. -/
def mark_out_of_stock (st : DBState) (pid : Nat) : Option DBState :=
  match Product.lookup st.products pid with
  | none => none
  | some _ =>
      some { st with
               products := st.products.map (fun p =>
                 if p.id == pid then { p with quantity_available := 0 } else p) }

inductive StatusResult where
  | notFound
  /-- Redirect back to the orders page; `flashed` records whether the
  success flash was shown.  The handler has no error outcome besides the
  404 of a missing order. -/
  | redirect (flashed : Bool)
  deriving Repr, DecidableEq

/-- Embeds update_order_status (app.py lines 953-964). -/
def update_order_status (st : DBState) (oid : Nat) (new_status : String) :
    StatusResult × DBState :=
  match st.orders.find? (fun o => o.id == oid) with
  | none => (.notFound, st)
  | some _ =>
      if new_status = "pending" ∨ new_status = "ready" ∨ new_status = "completed" then
        (.redirect true,
         { st with orders := st.orders.map (fun o =>
             if o.id == oid then { o with status := new_status } else o) })
      else (.redirect false, st)

inductive DeleteOrderResult where
  | notFound
  | redirect
  deriving Repr, DecidableEq

/-- Embeds delete_order (app.py lines 966-979): delete every OrderItem of
the order, then the order row itself.  Product rows are not touched. -/
def delete_order (st : DBState) (oid : Nat) : DeleteOrderResult × DBState :=
  match st.orders.find? (fun o => o.id == oid) with
  | none => (.notFound, st)
  | some _ =>
      (.redirect,
       { st with
           orders := st.orders.filter (fun o => o.id != oid),
           order_items := st.order_items.filter (fun it => it.order_id != oid) })

/-! ## Two concurrent checkouts against one product

process_checkout touches the row of a product twice: it reads
quantity_available during validation (app.py lines 483-484) and, at commit,
writes the value it computed in Python from that earlier read,
snapshot - quantity (lines 520-522).  Between the two touches the handler
performs no locking or guarded update, so another request may run both of
its own touches.  The model below is process_checkout restricted to one
single-line cart per request against one shared product row, with exactly
that read point and that write point as the atomic events. -/

inductive TxnPhase where
  | start
  /-- The validation read has happened; `snapshot` is the
  quantity_available value the handler saw and will base its write on. -/
  | validated (snapshot : ℚ)
  | committed
  | failed
  deriving Repr, DecidableEq

/-- The shared product row plus the progress of the two requests. -/
structure RaceState where
  stock : ℚ
  txn1 : TxnPhase
  txn2 : TxnPhase
  deriving Repr, DecidableEq

inductive RaceEvent where
  | validate1
  | validate2
  | commit1
  | commit2
  deriving Repr, DecidableEq

/-- The validation of one cart line (app.py line 484) against the stock
value read from the store. -/
def validateStep (stock : ℚ) (req : ℚ) : TxnPhase :=
  if stock ≤ 0 ∨ req > stock then .failed else .validated stock

/-- One atomic event of the interleaving: a validation reads the current
stock; a commit writes snapshot - request, the value the handler computed
from its own earlier read (app.py line 520). -/
def raceStep (req1 req2 : ℚ) (s : RaceState) : RaceEvent → RaceState
  | .validate1 =>
      match s.txn1 with
      | .start => { s with txn1 := validateStep s.stock req1 }
      | _ => s
  | .validate2 =>
      match s.txn2 with
      | .start => { s with txn2 := validateStep s.stock req2 }
      | _ => s
  | .commit1 =>
      match s.txn1 with
      | .validated snapshot => { s with stock := snapshot - req1, txn1 := .committed }
      | _ => s
  | .commit2 =>
      match s.txn2 with
      | .validated snapshot => { s with stock := snapshot - req2, txn2 := .committed }
      | _ => s

/-- Run a schedule of events. -/
def runRace (req1 req2 : ℚ) (events : List RaceEvent) (s : RaceState) : RaceState :=
  events.foldl (raceStep req1 req2) s

/-! ## Specification-side auxiliary definitions -/

/-- A cart line that fails the authoritative re-check of process_checkout
(app.py line 484): its product is gone, has no stock, or has less stock
than the line requests. -/
def lineOutOfStock (st : DBState) (item : CartLine) : Prop :=
  match Product.lookup st.products item.product_id with
  | none => True
  | some product =>
      product.quantity_available ≤ 0 ∨ item.quantity > product.quantity_available

/-- Removal of the first cart line whose product_id matches; the shape taken
by the update_cart loop when the new quantity is zero. -/
def removeFirst : List CartLine → Nat → List CartLine
  | [], _ => []
  | item :: rest, pid =>
      if item.product_id == pid then rest else item :: removeFirst rest pid

/-- Total quantity the commit loop of process_checkout subtracts from the
row of product `pid`: the sum of the quantities of the validated lines that
reference it. -/
def qtyFor (items : List ValidatedItem) (pid : Nat) : ℚ :=
  ((items.filter (fun v => v.product.id == pid)).map (·.quantity)).sum

/-- How one validated item of the checkout loop relates to the cart line it
came from. -/
def lineMatches (st : DBState) (l : CartLine) (v : ValidatedItem) : Prop :=
  Product.lookup st.products l.product_id = some v.product ∧
  v.quantity = l.quantity ∧ v.price = l.price ∧
  v.subtotal = l.price * l.quantity ∧
  0 < v.product.quantity_available ∧ l.quantity ≤ v.product.quantity_available

/-! ## Concrete fixtures, used to instantiate the hypothesised theorems -/

def productW : Product :=
  { id := 1, name := "Fresh Apples", description := "Crisp red apples",
    price := 10, original_price := none, quantity_available := 5,
    unit_type := "kg", image_path := none }

def orderW : Order :=
  { id := 1, customer_name := "Asha", customer_email := none,
    customer_phone := "6383419864", pickup_time := 0, total_amount := 20,
    status := "pending" }

def itemW : OrderItem :=
  { id := 1, order_id := 1, product_id := 1, quantity := 2, price := 10 }

def lineW : CartLine :=
  { product_id := 1, quantity := 2, price := 10, name := "Fresh Apples",
    image_path := none, unit_type := "kg" }

def stW : DBState :=
  { products := [productW], orders := [orderW], order_items := [itemW],
    next_product_id := 2, next_order_id := 2, next_item_id := 2 }

/-- A pickup parser that accepts everything; stands for strptime succeeding. -/
def parseW : String → String → Option Nat := fun _ _ => some 0

/-- The checkout form of the end-to-end example of the spec. -/
def formW : CheckoutForm :=
  { customer_name := "Asha", customer_email := "", customer_phone := "6383419864",
    pickup_date := "2026-10-12", pickup_time_slot := "7:00 AM" }

/-! # Theorems -/

/-- C10: delete_order removes the order row and every OrderItem of it and
leaves every other table untouched; in particular the products table, so the
stock decremented at checkout time is not restored. -/
theorem delete_order_frame (st : DBState) (oid : Nat) (o : Order)
    (hmem : st.orders.find? (fun o2 => o2.id == oid) = some o) :
    (delete_order st oid).1 = DeleteOrderResult.redirect ∧
    (delete_order st oid).2.products = st.products ∧
    (delete_order st oid).2.orders = st.orders.filter (fun o2 => o2.id != oid) ∧
    (delete_order st oid).2.order_items =
      st.order_items.filter (fun it => it.order_id != oid) := by
  simp [delete_order, hmem]

/-- Witness for C10 at the one-order fixture state. -/
theorem delete_order_frame_witness :
    (delete_order stW 1).1 = DeleteOrderResult.redirect ∧
    (delete_order stW 1).2.products = stW.products ∧
    (delete_order stW 1).2.orders = stW.orders.filter (fun o2 => o2.id != 1) ∧
    (delete_order stW 1).2.order_items =
      stW.order_items.filter (fun it => it.order_id != 1) :=
  delete_order_frame stW 1 orderW rfl

/-- C7: update_order_status accepts exactly the statuses pending, ready and
completed, overwriting the status of the order whatever its current value
is (no ordering constraint), and any other value leaves the state unchanged
with the same redirect outcome and no error surfaced (the only difference
is the missing success flash). -/
theorem update_order_status_spec (st : DBState) (oid : Nat) (s : String) (o : Order)
    (hmem : st.orders.find? (fun o2 => o2.id == oid) = some o) :
    ((s = "pending" ∨ s = "ready" ∨ s = "completed") →
        update_order_status st oid s =
          (StatusResult.redirect true,
           { st with orders := st.orders.map (fun o2 =>
               if o2.id == oid then { o2 with status := s } else o2) })) ∧
    (¬ (s = "pending" ∨ s = "ready" ∨ s = "completed") →
        update_order_status st oid s = (StatusResult.redirect false, st)) := by
  constructor <;> intro h
  · simp only [update_order_status, hmem]
    rw [if_pos h]
  · simp only [update_order_status, hmem]
    rw [if_neg h]

/-- Witness for C7: a pending order jumps directly to completed. -/
theorem update_order_status_spec_witness :
    update_order_status stW 1 "completed" =
      (StatusResult.redirect true,
       { stW with orders := stW.orders.map (fun o2 =>
           if o2.id == 1 then { o2 with status := "completed" } else o2) }) :=
  (update_order_status_spec stW 1 "completed" orderW rfl).1 (Or.inr (Or.inr rfl))

/-- C9 counterexample: in a session that has no cart key at all, the handler
returns the 400 "Cart is empty" error, so removal of an absent product is
not error-free for every cart state the route can see. -/
theorem remove_from_cart_missing_key_cex :
    remove_from_cart none 1 = CartRemoveResult.cartEmpty := rfl

/-- C9 amended: once the session holds a cart list (possibly empty), removal
of a product_id not in it succeeds and leaves the cart unchanged, and any
successful removal repeated gives the same cart again with no error. -/
theorem remove_from_cart_idempotent (cart : List CartLine) (product_id : Nat) :
    (product_id ∉ cart.map (·.product_id) →
        remove_from_cart (some cart) product_id = CartRemoveResult.ok cart) ∧
    (∀ cart2, remove_from_cart (some cart) product_id = CartRemoveResult.ok cart2 →
        remove_from_cart (some cart2) product_id = CartRemoveResult.ok cart2) := by
  constructor
  · intro habs
    have : ∀ item ∈ cart, item.product_id ≠ product_id := by
      intro item hitem heq
      exact habs (heq ▸ List.mem_map_of_mem (·.product_id) hitem)
    simp only [remove_from_cart, CartRemoveResult.ok.injEq]
    exact List.filter_eq_self.mpr (fun item hitem => by
      simpa using this item hitem)
  · intro cart2 h
    simp only [remove_from_cart, CartRemoveResult.ok.injEq] at h
    subst h
    simp [remove_from_cart, List.filter_filter]

/-- Witness for C9 amended, on a one-line cart and an absent product id. -/
theorem remove_from_cart_idempotent_witness :
    (2 ∉ [lineW].map (·.product_id) →
        remove_from_cart (some [lineW]) 2 = CartRemoveResult.ok [lineW]) ∧
    (∀ cart2, remove_from_cart (some [lineW]) 2 = CartRemoveResult.ok cart2 →
        remove_from_cart (some cart2) 2 = CartRemoveResult.ok cart2) :=
  remove_from_cart_idempotent [lineW] 2

/-- C8: the display contract of format_quantity, exactly as the spec states
it: the five special kg values, whole kilograms, gram conversion by
truncation for every other kg value, and integral/raw rendering for every
other unit type, together with the five concrete examples of the spec. -/
theorem format_quantity_spec :
    format_quantity 1 "kg" = "1 kg" ∧
    format_quantity (3 / 4) "kg" = "750g" ∧
    format_quantity (1 / 2) "kg" = "500g" ∧
    format_quantity (1 / 4) "kg" = "250g" ∧
    format_quantity (1 / 10) "kg" = "100g" ∧
    (∀ q : ℚ, q.den = 1 → format_quantity q "kg" = toString q.num ++ " kg") ∧
    (∀ q : ℚ, q.den ≠ 1 → q ≠ 3 / 4 → q ≠ 1 / 2 → q ≠ 1 / 4 → q ≠ 1 / 10 →
        format_quantity q "kg" = toString (truncRat (q * 1000)) ++ "g") ∧
    format_quantity (3 / 10) "kg" = "300g" ∧
    (∀ (q : ℚ) (u : String), u ≠ "kg" → q.den = 1 →
        format_quantity q u = toString q.num) ∧
    (∀ (q : ℚ) (u : String), u ≠ "kg" → q.den ≠ 1 → format_quantity q u = decStr q) ∧
    format_quantity 3 "quantity" = "3" ∧
    format_quantity (5 / 2) "quantity" = "2.5" := by
  refine ⟨rfl, ?_, ?_, ?_, ?_, ?_, ?_, ?_, ?_, ?_, rfl, ?_⟩
  · norm_num [format_quantity]
  · norm_num [format_quantity]
  · norm_num [format_quantity]
  · norm_num [format_quantity]
  · intro q hden
    by_cases h1 : q = 1
    · subst h1; rfl
    · have h34 : q ≠ 3 / 4 := fun h => by rw [h] at hden; norm_num at hden
      have h12 : q ≠ 1 / 2 := fun h => by rw [h] at hden; norm_num at hden
      have h14 : q ≠ 1 / 4 := fun h => by rw [h] at hden; norm_num at hden
      have h110 : q ≠ 1 / 10 := fun h => by rw [h] at hden; norm_num at hden
      rw [one_div] at h12 h14 h110
      simp [format_quantity, h1, h34, h12, h14, h110, hden]
  · intro q hden h34 h12 h14 h110
    have h1 : q ≠ 1 := fun h => hden (by rw [h]; rfl)
    rw [one_div] at h12 h14 h110
    simp [format_quantity, h1, h34, h12, h14, h110, hden]
  · norm_num [format_quantity, truncRat]
    decide
  · intro q u hu hden
    simp [format_quantity, hu, hden]
  · intro q u hu hden
    simp [format_quantity, hu, hden]
  · norm_num [format_quantity, decStr, fracDigits]
    decide

/-- The update_cart loop with new quantity zero removes the first matching
line. -/
theorem updateLoop_zero (cart : List CartLine) (pid : Nat) :
    updateLoop cart pid 0 = removeFirst cart pid := by
  induction cart with
  | nil => rfl
  | cons item rest ih =>
      by_cases h : item.product_id == pid <;> simp [updateLoop, removeFirst, h, ih]

/-- The update_cart loop with a nonzero new quantity overwrites the quantity
of the first matching line. -/
theorem updateLoop_ne_zero (cart : List CartLine) (pid : Nat) (q : ℚ) (hq : q ≠ 0) :
    updateLoop cart pid q = setQuantityFirst cart pid q := by
  induction cart with
  | nil => rfl
  | cons item rest ih =>
      by_cases h : item.product_id == pid <;>
        simp [updateLoop, setQuantityFirst, h, ih, hq]

/-- Overwriting the quantity of a line does not change the product ids of
the cart. -/
theorem setQuantityFirst_map_pid (cart : List CartLine) (pid : Nat) (q : ℚ) :
    (setQuantityFirst cart pid q).map (·.product_id) = cart.map (·.product_id) := by
  induction cart with
  | nil => rfl
  | cons item rest ih =>
      by_cases h : item.product_id == pid <;> simp [setQuantityFirst, h, ih]

/-- C6: update_cart on an existing product with nonnegative current stock:
quantity zero removes the line; a quantity above the current stock is
rejected with the insufficient-stock error; otherwise the quantity of the
line is overwritten absolutely. -/
theorem update_cart_spec (st : DBState) (cart : List CartLine) (pid : Nat) (q : ℚ)
    (product : Product) (hlookup : Product.lookup st.products pid = some product)
    (hnn : 0 ≤ product.quantity_available) :
    (q = 0 → update_cart st (some cart) pid q = CartUpdateResult.ok (removeFirst cart pid)) ∧
    (q > product.quantity_available →
        update_cart st (some cart) pid q = CartUpdateResult.insufficientStock) ∧
    (q ≠ 0 → ¬ q > product.quantity_available →
        update_cart st (some cart) pid q =
          CartUpdateResult.ok (setQuantityFirst cart pid q)) := by
  refine ⟨fun h0 => ?_, fun hgt => ?_, fun hne hle => ?_⟩
  · subst h0
    have hnot : ¬ (0 : ℚ) > product.quantity_available := not_lt.mpr hnn
    simp only [update_cart, hlookup]
    rw [if_neg hnot, updateLoop_zero]
  · simp only [update_cart, hlookup]
    rw [if_pos hgt]
  · simp only [update_cart, hlookup]
    rw [if_neg hle, updateLoop_ne_zero cart pid q hne]

/-- Witness for C6: setting the quantity of the only line of the fixture
cart to zero removes it. -/
theorem update_cart_spec_witness :
    update_cart stW (some [lineW]) 1 0 = CartUpdateResult.ok (removeFirst [lineW] 1) :=
  (update_cart_spec stW [lineW] 1 0 productW rfl (by decide)).1 rfl

/-- C5: add_to_cart on an existing product fails with the insufficient-stock
error exactly when the requested quantity, or the merged quantity with the
line already in the cart for that product, exceeds current availability; on
success it appends a snapshot line when the product is new to the cart and
otherwise merges by summing quantities; and it keeps the cart free of
duplicate product ids. -/
theorem add_to_cart_spec (st : DBState) (sess : Option (List CartLine)) (pid : Nat)
    (q : ℚ) (product : Product)
    (hlookup : Product.lookup st.products pid = some product) :
    (add_to_cart st sess pid q = CartAddResult.insufficientStock ↔
        q > product.quantity_available ∨
          ∃ item, (sess.getD []).find? (fun it => it.product_id == pid) = some item ∧
            item.quantity + q > product.quantity_available) ∧
    ((sess.getD []).find? (fun it => it.product_id == pid) = none →
        ¬ q > product.quantity_available →
        add_to_cart st sess pid q = CartAddResult.ok ((sess.getD []) ++
          [{ product_id := pid, quantity := q, price := product.price,
             name := product.name, image_path := product.image_path,
             unit_type := product.unit_type }])) ∧
    (∀ item, (sess.getD []).find? (fun it => it.product_id == pid) = some item →
        ¬ q > product.quantity_available →
        ¬ item.quantity + q > product.quantity_available →
        add_to_cart st sess pid q =
          CartAddResult.ok (setQuantityFirst (sess.getD []) pid (item.quantity + q))) ∧
    (∀ cart2, add_to_cart st sess pid q = CartAddResult.ok cart2 →
        ((sess.getD []).map (·.product_id)).Nodup → (cart2.map (·.product_id)).Nodup) := by
  by_cases hq : q > product.quantity_available
  · have hres : add_to_cart st sess pid q = CartAddResult.insufficientStock := by
      simp [add_to_cart, hlookup, hq]
    refine ⟨by rw [hres]; simp [hq], fun _ hc => absurd hq hc,
            fun item _ hc _ => absurd hq hc, fun cart2 h2 hnd => ?_⟩
    rw [hres] at h2; cases h2
  · cases hfind : (sess.getD []).find? (fun it => it.product_id == pid) with
    | none =>
        have hres : add_to_cart st sess pid q = CartAddResult.ok ((sess.getD []) ++
            [{ product_id := pid, quantity := q, price := product.price,
               name := product.name, image_path := product.image_path,
               unit_type := product.unit_type }]) := by
          simp [add_to_cart, hlookup, hq, hfind]
        refine ⟨?_, fun _ _ => hres,
                fun item hitem => absurd hitem (by simp),
                fun cart2 h2 hnd => ?_⟩
        · rw [hres]
          constructor
          · intro h; cases h
          · rintro (h | ⟨item, hitem, _⟩)
            · exact absurd h hq
            · exact Option.noConfusion hitem
        · rw [hres] at h2; injection h2 with h2; subst h2
          have hnotmem : pid ∉ (sess.getD []).map (·.product_id) := by
            intro hmem
            rcases List.mem_map.mp hmem with ⟨item, hitem, heq⟩
            have hne := List.find?_eq_none.mp hfind item hitem
            simp [heq] at hne
          simp [List.nodup_append, hnd, hnotmem]
    | some item0 =>
        by_cases hm : item0.quantity + q > product.quantity_available
        · have hres : add_to_cart st sess pid q = CartAddResult.insufficientStock := by
            simp [add_to_cart, hlookup, hq, hfind, hm]
          refine ⟨⟨fun _ => Or.inr ⟨item0, rfl, hm⟩, fun _ => hres⟩,
                  fun hnone => absurd hnone (by simp),
                  fun item hitem _ hc => ?_, fun cart2 h2 hnd => ?_⟩
          · injection hitem with h; subst h
            exact absurd hm hc
          · rw [hres] at h2; cases h2
        · have hres : add_to_cart st sess pid q =
              CartAddResult.ok (setQuantityFirst (sess.getD []) pid (item0.quantity + q)) := by
            simp [add_to_cart, hlookup, hq, hfind, hm]
          refine ⟨?_, fun hnone => absurd hnone (by simp),
                  fun item hitem _ _ => ?_, fun cart2 h2 hnd => ?_⟩
          · rw [hres]
            constructor
            · intro h; cases h
            · rintro (h | ⟨item, hitem, hgt⟩)
              · exact absurd h hq
              · injection hitem with h; subst h
                exact absurd hgt hm
          · injection hitem with h; subst h
            exact hres
          · rw [hres] at h2; injection h2 with h2; subst h2
            rw [setQuantityFirst_map_pid]; exact hnd

/-- Witness for C5: adding two units of the fixture product to an empty cart
snapshots its price, name, image and unit into a new line. -/
theorem add_to_cart_spec_witness :
    add_to_cart stW (some []) 1 2 = CartAddResult.ok ([] ++
      [{ product_id := 1, quantity := 2, price := productW.price,
         name := productW.name, image_path := productW.image_path,
         unit_type := productW.unit_type }]) :=
  (add_to_cart_spec stW (some []) 1 2 productW rfl).2.1 rfl (by decide)

/-- If any line of the cart fails the authoritative re-check, the whole
validation loop fails. -/
theorem validateCart_none_of_bad (st : DBState) (cart : List CartLine)
    (item : CartLine) (hmem : item ∈ cart) (hbad : lineOutOfStock st item) :
    validateCart st cart = none := by
  induction cart with
  | nil => cases hmem
  | cons head rest ih =>
      rcases List.mem_cons.mp hmem with heq | hmem2
      · subst heq
        cases hl : Product.lookup st.products item.product_id with
        | none => simp [validateCart, hl]
        | some product =>
            simp only [lineOutOfStock, hl] at hbad
            simp [validateCart, hl, hbad]
      · cases hl : Product.lookup st.products head.product_id with
        | none => simp [validateCart, hl]
        | some product => simp [validateCart, hl, ih hmem2]

/-- C1: a submitted checkout (non-empty cart, all required fields present,
parseable pickup time) containing any line whose product is missing, out of
stock, or has less stock than requested fails with the out-of-stock outcome
and returns the durable state and the session cart exactly as they were: no
Order or OrderItem row is inserted and no product stock is decremented. -/
theorem checkout_out_of_stock_is_atomic
    (parse_pickup : String → String → Option Nat) (st : DBState)
    (cart : List CartLine) (form : CheckoutForm) (t : Nat) (item : CartLine)
    (hcart : cart ≠ [])
    (hname : form.customer_name ≠ "") (hphone : form.customer_phone ≠ "")
    (hdate : form.pickup_date ≠ "") (hslot : form.pickup_time_slot ≠ "")
    (hparse : parse_pickup form.pickup_date form.pickup_time_slot = some t)
    (hmem : item ∈ cart) (hbad : lineOutOfStock st item) :
    process_checkout parse_pickup st (some cart) form =
      (CheckoutResult.outOfStock, st, some cart) := by
  have hv := validateCart_none_of_bad st cart item hmem hbad
  simp [process_checkout, hcart, hname, hphone, hdate, hslot, hparse, hv]

/-- Witness for C1: a cart asking for 9 units of the fixture product that
has 5 in stock is rejected and the state is untouched. -/
theorem checkout_out_of_stock_is_atomic_witness :
    process_checkout parseW stW (some [{ lineW with quantity := 9 }]) formW =
      (CheckoutResult.outOfStock, stW, some [{ lineW with quantity := 9 }]) :=
  checkout_out_of_stock_is_atomic parseW stW [{ lineW with quantity := 9 }] formW 0
    { lineW with quantity := 9 }
    (by simp) (by simp [formW]) (by simp [formW]) (by simp [formW]) (by simp [formW])
    rfl (by simp) (by simp [lineOutOfStock, Product.lookup, stW, productW, lineW]; decide)

/-- C3: with 5 units in stock and two concurrent checkouts requesting 3
each, the interleaving that runs both validations before either commit lets
BOTH requests commit: 6 units are sold from a stock of 5 (each commit
writes the value computed from its own stale read, leaving a final stock of
2 that hides the oversell).  The claim that at most one of the two can
succeed is false of the code, which performs no locking or guarded
decrement between its validation read and its commit write. -/
theorem race_interleaving_oversells :
    runRace 3 3 [RaceEvent.validate1, RaceEvent.validate2,
                 RaceEvent.commit1, RaceEvent.commit2]
        { stock := 5, txn1 := TxnPhase.start, txn2 := TxnPhase.start } =
      { stock := 2, txn1 := TxnPhase.committed, txn2 := TxnPhase.committed } := by
  norm_num [runRace, raceStep, validateStep, List.foldl]

/-- The product returned by a primary-key lookup has the looked-up id. -/
theorem Product.lookup_id (products : List Product) (pid : Nat) (p : Product)
    (h : Product.lookup products pid = some p) : p.id = pid := by
  have := List.find?_some h
  simpa using this

/-- The product returned by a primary-key lookup is a row of the table. -/
theorem Product.lookup_mem (products : List Product) (pid : Nat) (p : Product)
    (h : Product.lookup products pid = some p) : p ∈ products :=
  List.mem_of_find?_eq_some h

/-- A successful validation pass relates the cart lines and the validated
items pointwise. -/
theorem validateCart_forall₂ (st : DBState) :
    ∀ (cart : List CartLine) (items : List ValidatedItem),
      validateCart st cart = some items → List.Forall₂ (lineMatches st) cart items := by
  intro cart
  induction cart with
  | nil =>
      intro items h
      simp only [validateCart, Option.some.injEq] at h
      subst h
      exact List.Forall₂.nil
  | cons head rest ih =>
      intro items h
      simp only [validateCart] at h
      cases hl : Product.lookup st.products head.product_id with
      | none => simp only [hl] at h; exact Option.noConfusion h
      | some product =>
          simp only [hl] at h
          by_cases hc : product.quantity_available ≤ 0 ∨
              head.quantity > product.quantity_available
          · rw [if_pos hc] at h; cases h
          · rw [if_neg hc] at h
            push_neg at hc
            cases hr : validateCart st rest with
            | none => simp only [hr] at h; exact Option.noConfusion h
            | some items2 =>
                simp only [hr, Option.some.injEq] at h
                subst h
                exact List.Forall₂.cons ⟨hl, rfl, rfl, rfl, hc.1, hc.2⟩ (ih items2 hr)

/-- The validated items carry the product ids of their cart lines. -/
theorem forall₂_ids (st : DBState) :
    ∀ {cart : List CartLine} {items : List ValidatedItem},
      List.Forall₂ (lineMatches st) cart items →
      items.map (fun v => v.product.id) = cart.map (·.product_id) := by
  intro cart items hf
  induction hf with
  | nil => rfl
  | cons hrel hrest ih =>
      obtain ⟨hl, _, _, _, _, _⟩ := hrel
      simp [ih, Product.lookup_id _ _ _ hl]

/-- The subtotals of the validated items sum to the sum of price times
quantity over the cart lines. -/
theorem forall₂_total (st : DBState) :
    ∀ {cart : List CartLine} {items : List ValidatedItem},
      List.Forall₂ (lineMatches st) cart items →
      (items.map (·.subtotal)).sum = (cart.map (fun l => l.price * l.quantity)).sum := by
  intro cart items hf
  induction hf with
  | nil => rfl
  | cons hrel hrest ih =>
      obtain ⟨_, _, _, hs, _, _⟩ := hrel
      simp [ih, hs]

/-- The OrderItem rows created at commit carry, line by line, the order id,
the product id of the line, its quantity and its frozen price. -/
theorem mkOrderItems_map (st : DBState) (oid : Nat) :
    ∀ {cart : List CartLine} {items : List ValidatedItem},
      List.Forall₂ (lineMatches st) cart items →
      ∀ next_id : Nat,
        (mkOrderItems next_id oid items).map
            (fun it => (it.order_id, it.product_id, it.quantity, it.price)) =
          cart.map (fun l => (oid, l.product_id, l.quantity, l.price)) := by
  intro cart items hf
  induction hf with
  | nil => intro _; rfl
  | cons hrel hrest ih =>
      intro next_id
      obtain ⟨hl, hq, hp, _, _, _⟩ := hrel
      simp [mkOrderItems, ih, hq, hp, Product.lookup_id _ _ _ hl]

/-- Every OrderItem row created at commit belongs to the new order. -/
theorem mkOrderItems_order_id (oid : Nat) :
    ∀ (items : List ValidatedItem) (next_id : Nat) (it : OrderItem),
      it ∈ mkOrderItems next_id oid items → it.order_id = oid := by
  intro items
  induction items with
  | nil => intro _ it h; cases h
  | cons v rest ih =>
      intro next_id it h
      rcases List.mem_cons.mp h with heq | hmem
      · subst heq; rfl
      · exact ih (next_id + 1) it hmem

theorem qtyFor_nil (pid : Nat) : qtyFor [] pid = 0 := rfl

theorem qtyFor_cons (v : ValidatedItem) (items : List ValidatedItem) (pid : Nat) :
    qtyFor (v :: items) pid =
      (if v.product.id == pid then v.quantity else 0) + qtyFor items pid := by
  by_cases h : v.product.id == pid <;> simp [qtyFor, h]

/-- A product no cart line references is not decremented at all. -/
theorem qtyFor_eq_zero {items : List ValidatedItem} {pid : Nat}
    (h : ∀ v ∈ items, v.product.id ≠ pid) : qtyFor items pid = 0 := by
  induction items with
  | nil => rfl
  | cons v rest ih =>
      have hv := h v (List.mem_cons_self v rest)
      rw [qtyFor_cons, if_neg (by simpa using hv),
        ih (fun w hw => h w (List.mem_cons_of_mem v hw)), add_zero]

/-- With no duplicate product id in the cart, the total decrement applied to
the product of a line is exactly the quantity of that line. -/
theorem qtyFor_of_forall₂ (st : DBState) {cart : List CartLine}
    {items : List ValidatedItem} (hf : List.Forall₂ (lineMatches st) cart items)
    (hnodup : (cart.map (·.product_id)).Nodup) {l : CartLine} (hl : l ∈ cart) :
    qtyFor items l.product_id = l.quantity := by
  induction hf with
  | nil => cases hl
  | cons hrel hrest ih =>
      rename_i a v restc resti
      simp only [List.map_cons, List.nodup_cons] at hnodup
      obtain ⟨hnotin, hnd2⟩ := hnodup
      have hidv : v.product.id = a.product_id := Product.lookup_id _ _ _ hrel.1
      rcases List.mem_cons.mp hl with heq | hmem2
      · subst heq
        have hz : qtyFor resti l.product_id = 0 := by
          apply qtyFor_eq_zero
          intro w hw heqw
          have hmm : w.product.id ∈ resti.map (fun v2 => v2.product.id) :=
            List.mem_map_of_mem _ hw
          rw [forall₂_ids st hrest] at hmm
          rw [heqw] at hmm
          exact hnotin hmm
        rw [qtyFor_cons, if_pos (by simp [hidv]), hz, add_zero, hrel.2.1]
      · have hlpid : l.product_id ∈ restc.map (·.product_id) :=
          List.mem_map_of_mem _ hmem2
        have hne : a.product_id ≠ l.product_id := fun heq => hnotin (heq ▸ hlpid)
        rw [qtyFor_cons, if_neg (by simp [hidv, hne]), ih hnd2 hmem2, zero_add]

/-- The commit loop decrements every product row by the total quantity the
validated lines request of it. -/
theorem applyDecrements_eq :
    ∀ (items : List ValidatedItem) (products : List Product),
      applyDecrements products items = products.map
        (fun p => { p with quantity_available := p.quantity_available - qtyFor items p.id }) := by
  intro items
  induction items with
  | nil =>
      intro products
      have hfun : (fun p : Product =>
          { p with quantity_available := p.quantity_available - qtyFor [] p.id }) = id := by
        funext p
        simp [qtyFor_nil]
      simp only [applyDecrements, hfun, List.map_id]
  | cons v rest ih =>
      intro products
      simp only [applyDecrements]
      rw [ih (decrementProduct products v.product.id v.quantity)]
      unfold decrementProduct
      rw [List.map_map]
      apply List.map_congr_left
      intro p _
      by_cases h : p.id == v.product.id
      · have hid : p.id = v.product.id := by simpa using h
        simp only [Function.comp, if_pos h]
        rw [qtyFor_cons, if_pos (by simp [hid]), sub_sub]
      · have hid : p.id ≠ v.product.id := by simpa using h
        simp only [Function.comp, if_neg h]
        rw [qtyFor_cons, if_neg (by simp [Ne.symm hid]), zero_add]

/-- Projecting quantity times price out of the per-line tuple equality. -/
theorem map_qtyprice_of_tuples {new_items : List OrderItem} {cart : List CartLine}
    {oid : Nat}
    (h : new_items.map (fun it => (it.order_id, it.product_id, it.quantity, it.price)) =
        cart.map (fun l => (oid, l.product_id, l.quantity, l.price))) :
    new_items.map (fun it => it.quantity * it.price) =
      cart.map (fun l => l.quantity * l.price) := by
  have h2 := congrArg (List.map (fun x : Nat × Nat × ℚ × ℚ => x.2.2.1 * x.2.2.2)) h
  simpa [List.map_map, Function.comp] using h2

/-- C2: a checkout that passes the input gate, the pickup-time parse and the
stock re-check commits exactly one Order (status pending, total equal to
the sum of quantity times snapshot price over the cart), one OrderItem per
cart line with the frozen price, decrements the stock of the product of
each line by exactly that quantity of the line, clears the session cart,
and leaves the committed order satisfying
sum(item.quantity * item.price) = total_amount. -/
theorem checkout_success_commits_order
    (parse_pickup : String → String → Option Nat) (st : DBState)
    (cart : List CartLine) (form : CheckoutForm) (t : Nat)
    (items : List ValidatedItem)
    (hcart : cart ≠ [])
    (hname : form.customer_name ≠ "") (hphone : form.customer_phone ≠ "")
    (hdate : form.pickup_date ≠ "") (hslot : form.pickup_time_slot ≠ "")
    (hparse : parse_pickup form.pickup_date form.pickup_time_slot = some t)
    (hvalid : validateCart st cart = some items)
    (hnodup : (cart.map (·.product_id)).Nodup)
    (hfresh : ∀ it ∈ st.order_items, it.order_id ≠ st.next_order_id) :
    ∃ (o : Order) (st2 : DBState),
      process_checkout parse_pickup st (some cart) form =
        (CheckoutResult.success o.id, st2, none) ∧
      o.id = st.next_order_id ∧
      o.status = "pending" ∧
      o.total_amount = (cart.map (fun l => l.quantity * l.price)).sum ∧
      st2.orders = st.orders ++ [o] ∧
      (∃ new_items : List OrderItem,
        st2.order_items = st.order_items ++ new_items ∧
        new_items.map (fun it => (it.order_id, it.product_id, it.quantity, it.price)) =
          cart.map (fun l => (o.id, l.product_id, l.quantity, l.price))) ∧
      ((st2.order_items.filter (fun it => it.order_id == o.id)).map
          (fun it => it.quantity * it.price)).sum = o.total_amount ∧
      (∀ l ∈ cart, ∀ p ∈ st.products, p.id = l.product_id →
        { p with quantity_available := p.quantity_available - l.quantity } ∈ st2.products) ∧
      st2.products.length = st.products.length := by
  have hf := validateCart_forall₂ st cart items hvalid
  refine ⟨{ id := st.next_order_id, customer_name := form.customer_name,
            customer_email :=
              if form.customer_email = "" then none else some form.customer_email,
            customer_phone := form.customer_phone, pickup_time := t,
            total_amount := (items.map (·.subtotal)).sum, status := "pending" },
          { st with
              orders := st.orders ++
                [{ id := st.next_order_id, customer_name := form.customer_name,
                   customer_email :=
                     if form.customer_email = "" then none else some form.customer_email,
                   customer_phone := form.customer_phone, pickup_time := t,
                   total_amount := (items.map (·.subtotal)).sum, status := "pending" }],
              order_items := st.order_items ++
                mkOrderItems st.next_item_id st.next_order_id items,
              products := applyDecrements st.products items,
              next_order_id := st.next_order_id + 1,
              next_item_id := st.next_item_id + items.length },
          ?_, rfl, rfl, ?_, rfl, ?_, ?_, ?_, ?_⟩
  · simp [process_checkout, hcart, hname, hphone, hdate, hslot, hparse, hvalid]
  · have htot := forall₂_total st hf
    rw [htot]
    simp [mul_comm]
  · exact ⟨mkOrderItems st.next_item_id st.next_order_id items, rfl,
      mkOrderItems_map st st.next_order_id hf st.next_item_id⟩
  · have hold : st.order_items.filter
        (fun it => it.order_id == st.next_order_id) = [] := by
      rw [List.filter_eq_nil_iff]
      intro it hit
      simpa using hfresh it hit
    have hnew : (mkOrderItems st.next_item_id st.next_order_id items).filter
        (fun it => it.order_id == st.next_order_id) =
        mkOrderItems st.next_item_id st.next_order_id items := by
      rw [List.filter_eq_self]
      intro it hit
      simpa using mkOrderItems_order_id st.next_order_id items st.next_item_id it hit
    rw [List.filter_append, hold, hnew, List.nil_append]
    have hmap := map_qtyprice_of_tuples
      (mkOrderItems_map st st.next_order_id hf st.next_item_id)
    rw [hmap]
    have htot := forall₂_total st hf
    rw [htot]
    simp [mul_comm]
  · intro l hl p hp hpid
    have hq : qtyFor items p.id = l.quantity := by
      rw [hpid]
      exact qtyFor_of_forall₂ st hf hnodup hl
    have hmem := List.mem_map_of_mem
      (fun p : Product =>
        { p with quantity_available := p.quantity_available - qtyFor items p.id }) hp
    show { p with quantity_available := p.quantity_available - l.quantity } ∈
      applyDecrements st.products items
    rw [applyDecrements_eq, ← hq]
    simpa using hmem
  · show (applyDecrements st.products items).length = st.products.length
    rw [applyDecrements_eq, List.length_map]

/-- Witness for C2: the end-to-end example of the spec, a one-line cart of
two units at the frozen price 10 checked out against the fixture store. -/
theorem checkout_success_commits_order_witness :
    ∃ (o : Order) (st2 : DBState),
      process_checkout parseW stW (some [lineW]) formW =
        (CheckoutResult.success o.id, st2, none) ∧
      o.id = stW.next_order_id ∧
      o.status = "pending" ∧
      o.total_amount = ([lineW].map (fun l => l.quantity * l.price)).sum ∧
      st2.orders = stW.orders ++ [o] ∧
      (∃ new_items : List OrderItem,
        st2.order_items = stW.order_items ++ new_items ∧
        new_items.map (fun it => (it.order_id, it.product_id, it.quantity, it.price)) =
          [lineW].map (fun l => (o.id, l.product_id, l.quantity, l.price))) ∧
      ((st2.order_items.filter (fun it => it.order_id == o.id)).map
          (fun it => it.quantity * it.price)).sum = o.total_amount ∧
      (∀ l ∈ [lineW], ∀ p ∈ stW.products, p.id = l.product_id →
        { p with quantity_available := p.quantity_available - l.quantity } ∈ st2.products) ∧
      st2.products.length = stW.products.length :=
  checkout_success_commits_order parseW stW [lineW] formW 0
    [{ product := productW, quantity := 2, price := 10, subtotal := 10 * 2 }]
    (by simp) (by decide) (by decide) (by decide) (by decide) rfl rfl
    (by decide) (by decide)

/-- Every checkout either leaves the products table unchanged (any failing
gate) or applies the commit decrements of a successful validation. -/
theorem process_checkout_products (parse_pickup : String → String → Option Nat)
    (st : DBState) (sess : Option (List CartLine)) (form : CheckoutForm) :
    (process_checkout parse_pickup st sess form).2.1.products = st.products ∨
    ∃ cart items, sess = some cart ∧ validateCart st cart = some items ∧
      (process_checkout parse_pickup st sess form).2.1.products =
        applyDecrements st.products items := by
  cases sess with
  | none => exact Or.inl rfl
  | some cart =>
      by_cases h1 : cart = []
      · exact Or.inl (by simp [process_checkout, h1])
      · by_cases h2 : form.customer_name = "" ∨ form.customer_phone = "" ∨
            form.pickup_date = "" ∨ form.pickup_time_slot = ""
        · exact Or.inl (by simp [process_checkout, h1, h2])
        · cases hp : parse_pickup form.pickup_date form.pickup_time_slot with
          | none => exact Or.inl (by simp [process_checkout, h1, h2, hp])
          | some t =>
              cases hv : validateCart st cart with
              | none => exact Or.inl (by simp [process_checkout, h1, h2, hp, hv])
              | some items =>
                  exact Or.inr ⟨cart, items, rfl, hv,
                    by simp [process_checkout, h1, h2, hp, hv]⟩

/-- Pointwise correspondence applied at one member of the left list. -/
theorem forall₂_mem_left {R : CartLine → ValidatedItem → Prop} :
    ∀ {cart : List CartLine} {items : List ValidatedItem},
      List.Forall₂ R cart items → ∀ l ∈ cart, ∃ v ∈ items, R l v := by
  intro cart items hf
  induction hf with
  | nil => intro l hl; cases hl
  | cons hrel hrest ih =>
      intro l hl
      rcases List.mem_cons.mp hl with heq | hm
      · subst heq; exact ⟨_, List.mem_cons_self _ _, hrel⟩
      · obtain ⟨v, hv, hr⟩ := ih l hm
        exact ⟨v, List.mem_cons_of_mem _ hv, hr⟩

/-- C4 amended: starting from a store with nonnegative stock, a checkout
(primary keys unique, cart free of duplicate product ids) and
mark_out_of_stock always leave every stock nonnegative, and product
creation and product update do so whenever the submitted quantity is
nonnegative — the two form handlers store the submitted quantity with no
validation, which is why the unconditional claim fails. -/
theorem quantity_nonneg_amended (st : DBState)
    (hnn : ∀ p ∈ st.products, 0 ≤ p.quantity_available) :
    (∀ (parse_pickup : String → String → Option Nat) (cart : List CartLine)
        (form : CheckoutForm),
        (st.products.map (·.id)).Nodup →
        (cart.map (·.product_id)).Nodup →
        ∀ p ∈ (process_checkout parse_pickup st (some cart) form).2.1.products,
          0 ≤ p.quantity_available) ∧
    (∀ (pid : Nat) (st2 : DBState), mark_out_of_stock st pid = some st2 →
        ∀ p ∈ st2.products, 0 ≤ p.quantity_available) ∧
    (∀ (pid : Nat) (form : ProductForm) (image : Option String) (st2 : DBState),
        0 ≤ form.quantity → update_product st pid form image = some st2 →
        ∀ p ∈ st2.products, 0 ≤ p.quantity_available) ∧
    (∀ (form : ProductForm) (image : Option String), 0 ≤ form.quantity →
        ∀ p ∈ (add_product st form image).products, 0 ≤ p.quantity_available) := by
  refine ⟨?_, ?_, ?_, ?_⟩
  · intro parse_pickup cart form hnodp hnodc p2 hp2
    rcases process_checkout_products parse_pickup st (some cart) form with
      heq | ⟨cart2, items, hsess, hv, heq⟩
    · rw [heq] at hp2; exact hnn p2 hp2
    · injection hsess with hsess; subst hsess
      rw [heq, applyDecrements_eq] at hp2
      rcases List.mem_map.mp hp2 with ⟨p, hp, hpeq⟩
      subst hpeq
      show 0 ≤ p.quantity_available - qtyFor items p.id
      have hf := validateCart_forall₂ st cart items hv
      by_cases hmem : p.id ∈ cart.map (·.product_id)
      · rcases List.mem_map.mp hmem with ⟨l, hl, hlid⟩
        have hq : qtyFor items p.id = l.quantity := by
          rw [← hlid]
          exact qtyFor_of_forall₂ st hf hnodc hl
        obtain ⟨v, _, hrel⟩ := forall₂_mem_left hf l hl
        have hvp : v.product ∈ st.products := Product.lookup_mem _ _ _ hrel.1
        have hvid : v.product.id = l.product_id := Product.lookup_id _ _ _ hrel.1
        have hpv : p = v.product :=
          List.inj_on_of_nodup_map hnodp hp hvp (by rw [hvid, hlid])
        have hle : l.quantity ≤ p.quantity_available := by
          rw [hpv]; exact hrel.2.2.2.2.2
        rw [hq]
        exact sub_nonneg.mpr hle
      · have hz : qtyFor items p.id = 0 := by
          apply qtyFor_eq_zero
          intro v hv2 heqid
          apply hmem
          have : v.product.id ∈ items.map (fun v2 => v2.product.id) :=
            List.mem_map_of_mem _ hv2
          rw [forall₂_ids st hf] at this
          rwa [heqid] at this
        rw [hz, sub_zero]
        exact hnn p hp
  · intro pid st2 h p2 hp2
    unfold mark_out_of_stock at h
    cases hl : Product.lookup st.products pid with
    | none => rw [hl] at h; exact Option.noConfusion h
    | some q =>
        rw [hl] at h
        injection h with h
        subst h
        rcases List.mem_map.mp hp2 with ⟨p, hp, hpeq⟩
        subst hpeq
        by_cases hid : p.id == pid <;> simp [hid, hnn p hp]
  · intro pid form image st2 hq h p2 hp2
    unfold update_product at h
    cases hl : Product.lookup st.products pid with
    | none => rw [hl] at h; exact Option.noConfusion h
    | some q =>
        rw [hl] at h
        injection h with h
        subst h
        rcases List.mem_map.mp hp2 with ⟨p, hp, hpeq⟩
        subst hpeq
        by_cases hid : p.id == pid <;> simp [hid, hq, hnn p hp]
  · intro form image hq p2 hp2
    rcases List.mem_append.mp hp2 with hold | hnew
    · exact hnn p2 hold
    · rcases List.mem_singleton.mp hnew with rfl
      exact hq

/-- C4 counterexample: the seller form of update_product accepts a negative
quantity unchecked, so one committed update drives quantity_available of
the product below zero. -/
theorem update_product_negative_stock_cex :
    ∃ st2, update_product stW 1
        { name := "Fresh Apples", description := "Crisp red apples", price := 10,
          original_price := none, quantity := -1, unit_type := "kg" } none = some st2 ∧
      ∃ p ∈ st2.products, p.quantity_available < 0 := by
  refine ⟨_, rfl, ?_⟩
  decide

/-- Witness for C4 amended, at the fixture store after marking its product
out of stock. -/
theorem quantity_nonneg_amended_witness :
    0 ≤ ({ productW with quantity_available := 0 } : Product).quantity_available :=
  (quantity_nonneg_amended stW (by decide)).2.1 1
    { stW with products := [{ productW with quantity_available := 0 }] } rfl
    { productW with quantity_available := 0 } (List.mem_singleton.mpr rfl)

end FGS
